import Mathlib

/-!
Shallow embedding of the customflow-backend order-management service.

The definitions below are translated from the Go sources:
  main.go (controllers: GetOrders, GetOrder, CreateOrder, UpdateOrder,
           UpdateOrderStatus, DeleteOrder, contains, getMimeType)
  services/ai.go (InitAIService, ExtractTextFromImages,
           GenerateAIResponse, generateFallbackResponse, SetAIParameters)

Database state is modelled as explicit lists of rows; the external
filesystem and the external OpenAI HTTP endpoint are modelled as oracle
functions passed in as parameters; fallible row inserts inside a
transaction are modelled by an injected fault description, so that the
rollback/commit behaviour of each handler is visible in the final state.
Go float64 fields (length, width, temperature) are modelled as Rat: the
code only stores and compares them, it performs no float arithmetic.
-/

namespace CustomFlow

/-! ### Go standard-library helpers -/

/-- Model of Go filepath.Ext: the suffix starting at the final dot of the
final path element, empty when there is no dot after the last slash. -/
def goExtAux : List Char → Option (List Char) → Option (List Char)
  | [], acc => acc
  | c :: rest, acc =>
    if c = '/' then goExtAux rest none
    else if c = '.' then goExtAux rest (some (c :: rest))
    else goExtAux rest acc

/-- Model of Go filepath.Ext on strings. -/
def goExt (s : String) : String :=
  match goExtAux s.toList none with
  | none => ""
  | some cs => String.mk cs

/-- Model of getMimeType in main.go: extension-to-MIME lookup with
application/octet-stream as the default. -/
def getMimeType (ext : String) : String :=
  let e := ext.toLower
  if e = ".jpg" then "image/jpeg"
  else if e = ".jpeg" then "image/jpeg"
  else if e = ".png" then "image/png"
  else if e = ".gif" then "image/gif"
  else if e = ".webp" then "image/webp"
  else if e = ".bmp" then "image/bmp"
  else if e = ".svg" then "image/svg+xml"
  else "application/octet-stream"

/-- Model of the helper contains in main.go: linear scan for an exact
string match. -/
def contains (slice : List String) (item : String) : Bool :=
  slice.any (fun s => s == item)

/-- Model of Go strings.TrimSpace: drop leading and trailing whitespace
characters. -/
def goTrimSpace (s : String) : String :=
  String.mk
    (((s.toList.dropWhile Char.isWhitespace).reverse.dropWhile
        Char.isWhitespace).reverse)

/-! ### AI service (services/ai.go) -/

/-- Process-wide AI configuration, the AIService struct of services/ai.go. -/
structure AIService where
  apiKey : String
  model : String
  temperature : Rat
  maxTokens : Int
  baseURL : String
deriving Repr, DecidableEq

/-- Model of InitAIService: the configuration installed at startup.  The
API key is hardcoded to the empty string in the source. -/
def initAIService : AIService :=
  { apiKey := ""
    model := "gpt-4o"
    temperature := 7/10
    maxTokens := 1000
    baseURL := "https://api.openai.com/v1/chat/completions" }

/-- Model of SetAIParameters in services/ai.go: each parameter is stored
only when it already lies in range; out-of-range values leave the field
untouched. -/
def SetAIParameters (svc : AIService) (temperature : Rat) (maxTokens : Int) :
    AIService :=
  let svc1 :=
    if 0 ≤ temperature ∧ temperature ≤ 2 then
      { svc with temperature := temperature }
    else svc
  if 0 < maxTokens ∧ maxTokens ≤ 4000 then
    { svc1 with maxTokens := maxTokens }
  else svc1

/-- Errors produced by the AI gateway functions. -/
inductive AIError where
  | noImages
  | noAPIKey
  | noTextExtracted (n : Nat)
  | upstream (msg : String)
deriving Repr, DecidableEq

/-- Literal separator placed between per-image OCR results. -/
def sepNextImage : String := "\n\n---NEXT IMAGE---\n\n"

/-- Per-image pipeline of ExtractTextFromImages: the oracle stands for
imageToBase64 followed by performOCRRequest (none when either step
fails); a whitespace-only result is dropped, a successful result is
trimmed. -/
def processImage (oracle : String → Option String) (path : String) :
    Option String :=
  match oracle path with
  | none => none
  | some t => if goTrimSpace t = "" then none else some (goTrimSpace t)

/-- Model of ExtractTextFromImages in services/ai.go. -/
def ExtractTextFromImages (svc : AIService) (oracle : String → Option String)
    (images : List String) : Except AIError String :=
  if images.length == 0 then .error .noImages
  else if svc.apiKey == "" then .error .noAPIKey
  else
    let extractedTexts := images.filterMap (processImage oracle)
    if extractedTexts.length == 0 then .error (.noTextExtracted images.length)
    else .ok (String.intercalate sepNextImage extractedTexts)

/-- Fixed table of canned replies per tone in generateFallbackResponse;
an unknown tone falls back to the friendly table, as the Go map lookup
with the exists-check does. -/
def fallbackResponses (tone : String) : List String :=
  if tone == "friendly" then
    ["Thank you for reaching out about custom table covers! I would be happy to help you with your order. Could you please share the dimensions and any specific requirements?",
     "Hi there! Thanks for your interest in our table covers. We create high-quality custom covers to fit perfectly. What size do you need?"]
  else if tone == "formal" then
    ["Thank you for your inquiry. We would be pleased to assist with your custom table cover requirements. Please provide dimensions and specifications.",
     "We acknowledge your request for custom table cover services. Kindly provide the measurements and material preferences."]
  else if tone == "short" then
    ["Thanks! Please send table dimensions for a quote.",
     "Hi! What size table cover do you need?"]
  else
    ["Thank you for reaching out about custom table covers! I would be happy to help you with your order. Could you please share the dimensions and any specific requirements?",
     "Hi there! Thanks for your interest in our table covers. We create high-quality custom covers to fit perfectly. What size do you need?"]

/-- Model of generateFallbackResponse: the table entry at index
len(message) mod table size, where Go len is the UTF-8 byte length. -/
def generateFallbackResponse (message tone : String) : String :=
  let responseList := fallbackResponses tone
  responseList.getD (message.utf8ByteSize % responseList.length) ""

/-- Model of GenerateAIResponse: with no API key configured the fallback
reply is returned; otherwise one request is sent to the external
endpoint, modelled by the net oracle. -/
def GenerateAIResponse (svc : AIService)
    (net : String → String → Except AIError String)
    (message tone : String) : Except AIError String :=
  if svc.apiKey == "" then .ok (generateFallbackResponse message tone)
  else net message tone

/-! ### Order data model (models/models.go, Flyway schema) -/

/-- Row of the orders table, as in the Order model struct. -/
structure Order where
  id : Nat
  orderID : String
  customerName : String
  source : String
  phoneNumber : String
  length : Rat
  width : Rat
  thickness : String
  cornerStyle : String
  notes : String
  specialNotes : String
  status : String
  createdBy : Nat
deriving Repr, DecidableEq

/-- Row of the order_images table, as in the OrderImage model struct. -/
structure OrderImage where
  orderID : Nat
  filename : String
  path : String
  size : Nat
  mimeType : String
deriving Repr, DecidableEq

/-- Database state: the orders and order_images tables plus the next
serial primary key for orders. -/
structure Db where
  orders : List Order
  images : List OrderImage
  nextId : Nat
deriving Repr, DecidableEq

/-- Errors of the HTTP handlers, classified as in the responses of
main.go (400, 409, 404, 500). -/
inductive ApiError where
  | validation (msg : String)
  | conflict (msg : String)
  | notFound (msg : String)
  | storage (msg : String)
deriving Repr, DecidableEq

/-- Lookup of one order row by primary key, as config.DB.Where(id).First. -/
def getOrder (db : Db) (id : Nat) : Option Order :=
  db.orders.find? (fun o => o.id == id)

/-- Model of the GetOrder handler: 404 when the row is absent. -/
def GetOrder (db : Db) (id : Nat) : Except ApiError Order :=
  match getOrder db id with
  | none => .error (.notFound "Order not found")
  | some o => .ok o

def validStatuses : List String := ["new", "in-progress", "done"]
def validSources : List String := ["amazon", "whatsapp", "sms", "call"]
def validThickness : List String := ["2mm", "3mm", "5mm", "8mm"]
def validCorners : List String := ["sharp", "rounded", "custom"]

/-! ### Pagination (GetOrders handler) -/

/-- Model of the page computation in GetOrders: a parse failure or a
value below 1 yields page 1.  none stands for a strconv.Atoi error. -/
def effectivePage (p : Option Int) : Int :=
  match p with
  | none => 1
  | some v => if v < 1 then 1 else v

/-- Model of the limit computation in GetOrders: a parse failure or a
value outside [1,100] yields the default 20. -/
def effectiveLimit (l : Option Int) : Int :=
  match l with
  | none => 20
  | some v => if v < 1 ∨ 100 < v then 20 else v

/-! ### CreateOrder handler (main.go) -/

/-- JSON body of POST /orders and PUT /orders/:id, as the
CreateOrderRequest struct. -/
structure CreateOrderRequest where
  orderID : String
  customerName : String
  source : String
  phoneNumber : String
  length : Rat
  width : Rat
  thickness : String
  cornerStyle : String
  notes : String
  specialNotes : String
  imageFiles : List String
deriving Repr, DecidableEq

/-- Gin binding validation of CreateOrderRequest: order_id required with
rune count in [3,100], length and width required and strictly positive,
thickness and corner_style required (non-empty). -/
def bindingValid (req : CreateOrderRequest) : Bool :=
  decide (3 ≤ req.orderID.length) && decide (req.orderID.length ≤ 100) &&
  decide ((0 : Rat) < req.length) && decide ((0 : Rat) < req.width) &&
  !(req.thickness == "") && !(req.cornerStyle == "")

/-- Defaults applied by CreateOrder after binding: empty source becomes
amazon, empty thickness 3mm, empty corner style sharp. -/
def applyDefaults (req : CreateOrderRequest) : CreateOrderRequest :=
  { req with
    source := if req.source == "" then "amazon" else req.source
    thickness := if req.thickness == "" then "3mm" else req.thickness
    cornerStyle := if req.cornerStyle == "" then "sharp" else req.cornerStyle }

/-- Outcome of the tx.Create call for the order row: success, a
duplicate/unique-key violation, or any other database failure. -/
inductive InsertFault where
  | ok
  | duplicateKey
  | otherFault
deriving Repr, DecidableEq

/-- External collaborators of CreateOrder: the fault injected into the
order-row insert, which image-row inserts fail, and the upload-store
filesystem (existence and byte size per filename). -/
structure CreateEnv where
  orderFault : InsertFault
  imageFault : String → Bool
  fsExists : String → Bool
  fsSize : String → Nat

/-- Image row built for one filename, as in CreateOrder and UpdateOrder:
path /uploads/filename, MIME from the extension, size from the
filesystem. -/
def mkOrderImage (oid : Nat) (filename : String) (fsSize : String → Nat) :
    OrderImage :=
  { orderID := oid
    filename := filename
    path := "/uploads/" ++ filename
    size := fsSize filename
    mimeType := getMimeType (goExt filename) }

/-- Model of the CreateOrder handler: binding validation, defaults, enum
checks, order-id normalization, duplicate pre-check, filesystem filter
of the image list, then the transaction.  A failing order-row insert
rolls the transaction back (state unchanged) and is classified as
conflict or storage; a failing image-row insert is skipped and the
transaction still commits, as the source does. -/
def CreateOrder (db : Db) (req0 : CreateOrderRequest) (env : CreateEnv) :
    Except ApiError Order × Db :=
  if bindingValid req0 = false then
    (.error (.validation "Validation failed"), db)
  else
    let req := applyDefaults req0
    if contains validSources req.source = false then
      (.error (.validation "Invalid source"), db)
    else if contains validThickness req.thickness = false then
      (.error (.validation "Invalid thickness"), db)
    else if contains validCorners req.cornerStyle = false then
      (.error (.validation "Invalid corner style"), db)
    else
      let oid := goTrimSpace req.orderID
      if oid == "" then (.error (.validation "Order ID cannot be empty"), db)
      else if db.orders.any (fun o => o.orderID == oid) then
        (.error (.conflict "Order ID already exists"), db)
      else
        let validImageFiles := req.imageFiles.filter env.fsExists
        let order : Order :=
          { id := db.nextId
            orderID := oid
            customerName := goTrimSpace req.customerName
            source := req.source
            phoneNumber := goTrimSpace req.phoneNumber
            length := req.length
            width := req.width
            thickness := req.thickness
            cornerStyle := req.cornerStyle
            notes := goTrimSpace req.notes
            specialNotes := goTrimSpace req.specialNotes
            status := "new"
            createdBy := 1 }
        match env.orderFault with
        | .duplicateKey => (.error (.conflict "Order ID already exists"), db)
        | .otherFault => (.error (.storage "Failed to create order"), db)
        | .ok =>
          let newImages := validImageFiles.filterMap (fun f =>
            if env.imageFault f then none
            else some (mkOrderImage db.nextId f env.fsSize))
          (.ok order,
           { orders := db.orders ++ [order]
             images := db.images ++ newImages
             nextId := db.nextId + 1 })

/-! ### UpdateOrder handler (main.go) -/

/-- Duplicate check of UpdateOrder: the request carries a different
order identifier and some other row already uses it. -/
def updateConflict (db : Db) (order : Order) (req : CreateOrderRequest) :
    Bool :=
  !(req.orderID == order.orderID) &&
    db.orders.any (fun o2 => o2.orderID == req.orderID && !(o2.id == order.id))

/-- Fields written onto the loaded order row by UpdateOrder. -/
def applyOrderFields (order : Order) (req : CreateOrderRequest) : Order :=
  { order with
    orderID := goTrimSpace req.orderID
    customerName := goTrimSpace req.customerName
    source := req.source
    phoneNumber := goTrimSpace req.phoneNumber
    length := req.length
    width := req.width
    thickness := req.thickness
    cornerStyle := req.cornerStyle
    notes := goTrimSpace req.notes
    specialNotes := goTrimSpace req.specialNotes }

/-- Model of the UpdateOrder handler: load by primary key, bind, check
the identifier collision, save the field changes, and replace the image
set (delete all rows of the order, insert one row per supplied filename
that exists in the upload store) only when the supplied list is
non-empty. -/
def UpdateOrder (db : Db) (id : Nat) (req : CreateOrderRequest)
    (fsExists : String → Bool) (fsSize : String → Nat) :
    Except ApiError Order × Db :=
  match getOrder db id with
  | none => (.error (.notFound "Order not found"), db)
  | some order =>
    if bindingValid req = false then
      (.error (.validation "Validation failed"), db)
    else if updateConflict db order req then
      (.error (.conflict ("Order ID already exists: " ++ req.orderID)), db)
    else
      let updated := applyOrderFields order req
      let orders2 := db.orders.map (fun x =>
        if x.id == order.id then updated else x)
      let images2 :=
        if req.imageFiles.isEmpty then db.images
        else
          db.images.filter (fun img => !(img.orderID == order.id)) ++
            (req.imageFiles.filter fsExists).map
              (fun f => mkOrderImage order.id f fsSize)
      (.ok updated, { db with orders := orders2, images := images2 })

/-! ### UpdateOrderStatus handler (main.go) -/

/-- Model of the UpdateOrderStatus handler: the status enum is checked
first, then the row is loaded and only its status field is written. -/
def UpdateOrderStatus (db : Db) (id : Nat) (status : String) :
    Except ApiError Order × Db :=
  if contains validStatuses status = false then
    (.error (.validation "Invalid status"), db)
  else
    match getOrder db id with
    | none => (.error (.notFound "Order not found"), db)
    | some order =>
      let updated := { order with status := status }
      (.ok updated,
       { db with orders := db.orders.map (fun x =>
           if x.id == order.id then updated else x) })

/-! ### DeleteOrder handler (main.go) -/

/-- Model of the DeleteOrder handler: load by primary key, then in one
transaction delete the image rows of the order and then the order row. -/
def DeleteOrder (db : Db) (id : Nat) : Except ApiError Unit × Db :=
  match getOrder db id with
  | none => (.error (.notFound "Order not found"), db)
  | some order =>
    (.ok (),
     { db with
       images := db.images.filter (fun img => !(img.orderID == order.id))
       orders := db.orders.filter (fun o => !(o.id == order.id)) })

/-! ### Concrete sample data used by witnesses and counterexamples -/

/-- Success test on a handler result. -/
def exceptIsOk {ε α : Type} : Except ε α → Bool
  | .ok _ => true
  | .error _ => false

/-- Network oracle standing for an unreachable endpoint. -/
def noNet : String → String → Except AIError String :=
  fun _ _ => .error (.upstream "unreachable")

/-- AI configuration with a credential installed. -/
def keyedService : AIService := { initAIService with apiKey := "k" }

/-- Concrete per-image OCR oracle: a.png is unreadable, b.png yields
text surrounded by whitespace, c.png yields plain text. -/
def sampleOracle : String → Option String := fun p =>
  if p == "b.png" then some " hello "
  else if p == "c.png" then some "world"
  else none

/-- Concrete three-image input list. -/
def imgs3 : List String := ["a.png", "b.png", "c.png"]

/-- Empty database. -/
def db0 : Db := { orders := [], images := [], nextId := 1 }

/-- Concrete valid creation request carrying two image filenames. -/
def reqImages : CreateOrderRequest :=
  { orderID := "ORD-100"
    customerName := "Ada"
    source := "amazon"
    phoneNumber := ""
    length := 40
    width := 30
    thickness := "3mm"
    cornerStyle := "sharp"
    notes := ""
    specialNotes := ""
    imageFiles := ["a.png", "b.png"] }

/-- Fault-free environment: every file exists, no insert fails. -/
def envOk : CreateEnv :=
  { orderFault := .ok
    imageFault := fun _ => false
    fsExists := fun _ => true
    fsSize := fun _ => 0 }

/-- Environment in which the image-row insert for b.png fails. -/
def envImgFaultB : CreateEnv := { envOk with imageFault := fun f => f == "b.png" }

/-- Order row produced by CreateOrder on db0, reqImages, envOk. -/
def o5 : Order :=
  { id := 1
    orderID := "ORD-100"
    customerName := "Ada"
    source := "amazon"
    phoneNumber := ""
    length := 40
    width := 30
    thickness := "3mm"
    cornerStyle := "sharp"
    notes := ""
    specialNotes := ""
    status := "new"
    createdBy := 1 }

/-- Concrete image row owned by order 1. -/
def oldImg : OrderImage :=
  { orderID := 1
    filename := "old.png"
    path := "/uploads/old.png"
    size := 5
    mimeType := "image/png" }

/-- Database holding one order (primary key 1) with one image row. -/
def dbU : Db := { orders := [o5], images := [oldImg], nextId := 2 }

/-- Update request naming one image file that is absent from the upload
store. -/
def reqMissing : CreateOrderRequest := { reqImages with imageFiles := ["missing.png"] }

/-- Update request naming one image file that exists. -/
def reqNewImg : CreateOrderRequest := { reqImages with imageFiles := ["new.png"] }

/-- Filesystem oracle on which no file exists. -/
def noFs : String → Bool := fun _ => false

/-- Filesystem oracle on which exactly new.png exists. -/
def fsNew : String → Bool := fun f => f == "new.png"

/-- Filesystem size oracle returning zero. -/
def zeroSize : String → Nat := fun _ => 0

end CustomFlow

namespace CustomFlow

/-! ## Theorems -/

/-- Helper: mapping an id-preserving function over the orders table
commutes with the primary-key lookup. -/
theorem find?_id_map_update (l : List Order) (idv : Nat) (g : Order → Order)
    (hg : ∀ x, (g x).id = x.id) :
    (l.map g).find? (fun x => x.id == idv) =
      (l.find? (fun x => x.id == idv)).map g := by
  induction l with
  | nil => rfl
  | cons a t ih =>
    simp only [List.map_cons, List.find?_cons]
    rw [hg a]
    cases hpa : (a.id == idv) with
    | true => simp
    | false => simpa using ih

/-- C2 (amended): a page-size value outside [1,100] (or unparsable) is
replaced by the default 20 rather than clamped to the nearest bound;
in-range values are used as given, the effective limit always lies in
[1,100], and the page number is at least 1. -/
theorem pagination_defaults (v : Int) (p : Option Int) :
    effectiveLimit none = 20
    ∧ effectiveLimit (some v) = (if v < 1 ∨ 100 < v then 20 else v)
    ∧ 1 ≤ effectiveLimit (some v) ∧ effectiveLimit (some v) ≤ 100
    ∧ 1 ≤ effectivePage p := by
  refine ⟨rfl, rfl, ?_, ?_, ?_⟩
  · unfold effectiveLimit
    split <;> omega
  · unfold effectiveLimit
    split <;> omega
  · cases p with
    | none => norm_num [effectivePage]
    | some w =>
      unfold effectivePage
      split <;> omega

/-- C2 counterexample: a request with limit 150 uses the effective limit
20, not 100 as the claim states. -/
theorem pagination_limit_not_clamped :
    effectiveLimit (some 150) = 20 ∧ (20 : Int) ≠ 100 := by decide

/-- C4 (amended): the parameter update stores the given temperature only
when it already lies in [0,2] and the given max-token count only when it
lies in (0,4000], leaving an out-of-range value ignored; no other
configuration field changes. -/
theorem set_ai_parameters_conditional_update (svc : AIService) (t : Rat)
    (m : Int) :
    (SetAIParameters svc t m).temperature
        = (if 0 ≤ t ∧ t ≤ 2 then t else svc.temperature)
    ∧ (SetAIParameters svc t m).maxTokens
        = (if 0 < m ∧ m ≤ 4000 then m else svc.maxTokens)
    ∧ (SetAIParameters svc t m).apiKey = svc.apiKey
    ∧ (SetAIParameters svc t m).model = svc.model
    ∧ (SetAIParameters svc t m).baseURL = svc.baseURL := by
  simp only [SetAIParameters]
  split <;> split <;> simp

/-- C4 counterexample: at temperature 3 and max tokens 5000 the update
leaves the configuration untouched, whereas clamping into [0,2] and
(0,4000] would store 2 and 4000. -/
theorem set_ai_parameters_not_clamped :
    SetAIParameters initAIService 3 5000 = initAIService
    ∧ ¬ ((SetAIParameters initAIService 3 5000).temperature = 2
          ∧ (SetAIParameters initAIService 3 5000).maxTokens = 4000) := by
  have hT : ¬ ((0 : Rat) ≤ 3 ∧ (3 : Rat) ≤ 2) := by norm_num
  have hM : ¬ ((0 : Int) < 5000 ∧ (5000 : Int) ≤ 4000) := by norm_num
  have h : SetAIParameters initAIService 3 5000 = initAIService := by
    simp only [SetAIParameters]
    rw [if_neg hM, if_neg hT]
  refine ⟨h, ?_⟩
  rintro ⟨h1, _⟩
  rw [h] at h1
  have h0 : initAIService.temperature = 7 / 10 := rfl
  rw [h0] at h1
  norm_num at h1

/-- C7: with no credential configured, the reply generator returns the
canned reply of the fixed per-tone table at index len(message) mod table
size (Go byte length), so it is a pure function of message and tone, and
two messages of equal byte length with the same tone receive the same
reply. -/
theorem fallback_reply_table (svc : AIService)
    (net : String → String → Except AIError String) (message tone : String)
    (hkey : svc.apiKey = "") :
    GenerateAIResponse svc net message tone
        = .ok (generateFallbackResponse message tone)
    ∧ generateFallbackResponse message tone
        = (fallbackResponses tone).getD
            (message.utf8ByteSize % (fallbackResponses tone).length) ""
    ∧ (∀ m2 : String, m2.utf8ByteSize = message.utf8ByteSize →
        GenerateAIResponse svc net m2 tone
          = GenerateAIResponse svc net message tone) := by
  refine ⟨by simp [GenerateAIResponse, hkey], rfl, ?_⟩
  intro m2 h2
  simp [GenerateAIResponse, hkey, generateFallbackResponse, h2]

/-- C7 witness at a concrete message and tone with the startup
configuration, whose credential is empty. -/
theorem fallback_reply_table_witness :
    GenerateAIResponse initAIService noNet "hello" "formal"
        = .ok (generateFallbackResponse "hello" "formal")
    ∧ generateFallbackResponse "hello" "formal"
        = (fallbackResponses "formal").getD
            (("hello" : String).utf8ByteSize % (fallbackResponses "formal").length) ""
    ∧ (∀ m2 : String, m2.utf8ByteSize = ("hello" : String).utf8ByteSize →
        GenerateAIResponse initAIService noNet m2 "formal"
          = GenerateAIResponse initAIService noNet "hello" "formal") :=
  fallback_reply_table initAIService noNet "hello" "formal" rfl

/-- C10: with no API credential configured, OCR returns an error for
every input list without consulting the image pipeline (the result does
not depend on the per-image oracle), the empty list also yields an
error, while the reply generator still succeeds with its fallback. -/
theorem extract_text_no_key (svc : AIService)
    (oracle : String → Option String) (images : List String)
    (hkey : svc.apiKey = "") :
    exceptIsOk (ExtractTextFromImages svc oracle images) = false
    ∧ (∀ oracle2, ExtractTextFromImages svc oracle images
        = ExtractTextFromImages svc oracle2 images)
    ∧ ExtractTextFromImages svc oracle [] = .error .noImages
    ∧ (∀ net message tone, GenerateAIResponse svc net message tone
        = .ok (generateFallbackResponse message tone)) := by
  have hb : (svc.apiKey == "") = true := by simp [hkey]
  cases images with
  | nil =>
    exact ⟨rfl, fun _ => rfl, rfl, fun net m t => by simp [GenerateAIResponse, hb]⟩
  | cons a rest =>
    refine ⟨?_, fun o2 => ?_, rfl, fun net m t => by simp [GenerateAIResponse, hb]⟩
    · simp [ExtractTextFromImages, hb, exceptIsOk]
    · simp [ExtractTextFromImages, hb]

/-- C10 witness: the startup configuration has an empty credential, so
OCR fails on a concrete singleton list and on the empty list, while the
reply generator succeeds. -/
theorem extract_text_no_key_witness :
    exceptIsOk (ExtractTextFromImages initAIService sampleOracle ["b.png"]) = false
    ∧ (∀ oracle2, ExtractTextFromImages initAIService sampleOracle ["b.png"]
        = ExtractTextFromImages initAIService oracle2 ["b.png"])
    ∧ ExtractTextFromImages initAIService sampleOracle [] = .error .noImages
    ∧ (∀ net message tone, GenerateAIResponse initAIService net message tone
        = .ok (generateFallbackResponse message tone)) :=
  extract_text_no_key initAIService sampleOracle ["b.png"] rfl

/-- C3: with a credential configured and a non-empty image list, OCR
fails exactly when every image yields no text (and then with the
no-text-extracted error naming the full input count); otherwise it
succeeds with the trimmed texts of the successful images, in input
order, joined by the literal separator — per-image failures are skipped,
never propagated. -/
theorem extract_text_skips_failures (svc : AIService)
    (oracle : String → Option String) (images : List String)
    (himg : images ≠ []) (hkey : svc.apiKey ≠ "") :
    (ExtractTextFromImages svc oracle images
        = .error (.noTextExtracted images.length)
      ↔ ∀ p ∈ images, processImage oracle p = none)
    ∧ ((∃ p ∈ images, processImage oracle p ≠ none) →
        ExtractTextFromImages svc oracle images
          = .ok (String.intercalate sepNextImage
              (images.filterMap (processImage oracle)))) := by
  have h1 : (images.length == 0) = false := by
    cases images with
    | nil => exact absurd rfl himg
    | cons a t => rfl
  have h2 : (svc.apiKey == "") = false := by
    simpa using hkey
  by_cases hnil : images.filterMap (processImage oracle) = []
  · have h3 : ((images.filterMap (processImage oracle)).length == 0) = true := by
      simp [hnil]
    constructor
    · constructor
      · intro _
        exact List.filterMap_eq_nil_iff.mp hnil
      · intro _
        simp [ExtractTextFromImages, h1, h2, h3]
    · rintro ⟨p, hp, hne⟩
      exact absurd (List.filterMap_eq_nil_iff.mp hnil p hp) hne
  · have h3 : ((images.filterMap (processImage oracle)).length == 0) = false := by
      simp [List.length_eq_zero, hnil]
    constructor
    · constructor
      · intro hres
        simp [ExtractTextFromImages, h1, h2, h3] at hres
      · intro hall
        exact absurd (List.filterMap_eq_nil_iff.mpr hall) hnil
    · intro _
      simp [ExtractTextFromImages, h1, h2, h3]

/-- C3 witness: with a credential, one unreadable image, one image whose
text needs trimming and one plain image, OCR succeeds with the two
trimmed texts joined by the separator, and the all-fail iff is settled
negatively. -/
theorem extract_text_skips_failures_witness :
    (ExtractTextFromImages keyedService sampleOracle imgs3
        = .error (.noTextExtracted imgs3.length)
      ↔ ∀ p ∈ imgs3, processImage sampleOracle p = none)
    ∧ ((∃ p ∈ imgs3, processImage sampleOracle p ≠ none) →
        ExtractTextFromImages keyedService sampleOracle imgs3
          = .ok (String.intercalate sepNextImage
              (imgs3.filterMap (processImage sampleOracle)))) :=
  extract_text_skips_failures keyedService sampleOracle imgs3
    (by decide) (by decide)

/-- C5: whenever order creation returns an order, that order has status
new and its identifier is the whitespace-trimmed identifier of the
request; no other status is ever produced by creation. -/
theorem create_order_status_new (db : Db) (req : CreateOrderRequest)
    (env : CreateEnv) (o : Order)
    (h : (CreateOrder db req env).1 = .ok o) :
    o.status = "new" ∧ o.orderID = goTrimSpace req.orderID := by
  simp only [CreateOrder] at h
  repeat' split at h
  all_goals simp_all [applyDefaults]
  exact ⟨by rw [← h], by rw [← h]⟩

/-- C5 witness: a concrete valid creation on the empty database returns
the order o5, whose status is new and whose identifier is the trimmed
request identifier. -/
theorem create_order_status_new_witness :
    o5.status = "new" ∧ o5.orderID = goTrimSpace reqImages.orderID :=
  create_order_status_new db0 reqImages envOk o5 (by rfl)

/-- C6: deleting an existing order succeeds, afterwards no image row
references the deleted primary key, and a subsequent get of that key
fails with the not-found error. -/
theorem delete_order_cascades (db : Db) (id : Nat) (o : Order)
    (h : getOrder db id = some o) :
    (DeleteOrder db id).1 = .ok ()
    ∧ (∀ img ∈ (DeleteOrder db id).2.images, img.orderID ≠ id)
    ∧ GetOrder (DeleteOrder db id).2 id
        = .error (.notFound "Order not found") := by
  have hid : o.id = id := by
    have hp := List.find?_some h
    simpa using hp
  have himg : (DeleteOrder db id).2.images
      = db.images.filter (fun img => !(img.orderID == o.id)) := by
    simp [DeleteOrder, h]
  have hord : (DeleteOrder db id).2.orders
      = db.orders.filter (fun x => !(x.id == o.id)) := by
    simp [DeleteOrder, h]
  refine ⟨by simp [DeleteOrder, h], ?_, ?_⟩
  · intro img hmem
    rw [himg, List.mem_filter] at hmem
    have h2 := hmem.2
    rw [hid] at h2
    simpa using h2
  · have hnone : getOrder (DeleteOrder db id).2 id = none := by
      unfold getOrder
      rw [hord, List.find?_eq_none]
      intro x hx
      rw [List.mem_filter] at hx
      have h2 := hx.2
      rw [hid] at h2
      simpa using h2
    simp [GetOrder, hnone]

/-- C6 witness: deleting order 1 from the concrete database with one
image row yields an image table with no row for order 1 and a not-found
get. -/
theorem delete_order_cascades_witness :
    (DeleteOrder dbU 1).1 = .ok ()
    ∧ (∀ img ∈ (DeleteOrder dbU 1).2.images, img.orderID ≠ 1)
    ∧ GetOrder (DeleteOrder dbU 1).2 1
        = .error (.notFound "Order not found") :=
  delete_order_cascades dbU 1 o5 (by decide)

/-- C8: the status update accepts exactly the three values new,
in-progress and done — any of them may be set on an existing order
regardless of its current status, after which the stored status equals
the requested value — and rejects every other string with the
validation error, leaving the database unchanged. -/
theorem update_status_enum (db : Db) (id : Nat) (status : String) (o : Order)
    (h : getOrder db id = some o) :
    (contains validStatuses status = true
      ↔ (status = "new" ∨ status = "in-progress" ∨ status = "done"))
    ∧ (contains validStatuses status = true →
        (UpdateOrderStatus db id status).1 = .ok { o with status := status }
        ∧ getOrder (UpdateOrderStatus db id status).2 id
            = some { o with status := status })
    ∧ (contains validStatuses status = false →
        UpdateOrderStatus db id status
          = (.error (.validation "Invalid status"), db)) := by
  have hid : o.id = id := by
    have hp := List.find?_some h
    simpa using hp
  refine ⟨?_, ?_, ?_⟩
  · constructor
    · intro hv
      simp [contains, validStatuses] at hv
      tauto
    · intro hv
      simp [contains, validStatuses]
      tauto
  · intro hv
    constructor
    · simp [UpdateOrderStatus, hv, h]
    · have horders : (UpdateOrderStatus db id status).2.orders
          = db.orders.map (fun x =>
              if x.id == o.id then { o with status := status } else x) := by
        simp [UpdateOrderStatus, hv, h]
      unfold getOrder
      rw [horders, find?_id_map_update]
      · rw [show db.orders.find? (fun x => x.id == id) = some o from h]
        simp
      · intro x
        by_cases hx : x.id = o.id
        · simp [hx]
        · simp [hx]
  · intro hv
    simp [UpdateOrderStatus, hv]

/-- C8 witness: setting status done on the concrete order 1 (currently
new) succeeds and stores done, and the enum iff is settled at the value
done. -/
theorem update_status_enum_witness :
    (contains validStatuses "done" = true
      ↔ ("done" = "new" ∨ "done" = "in-progress" ∨ "done" = "done"))
    ∧ (contains validStatuses "done" = true →
        (UpdateOrderStatus dbU 1 "done").1 = .ok { o5 with status := "done" }
        ∧ getOrder (UpdateOrderStatus dbU 1 "done").2 1
            = some { o5 with status := "done" })
    ∧ (contains validStatuses "done" = false →
        UpdateOrderStatus dbU 1 "done"
          = (.error (.validation "Invalid status"), dbU)) :=
  update_status_enum dbU 1 "done" o5 (by decide)

/-- Helper: the defaults step leaves the order identifier unchanged. -/
theorem applyDefaults_orderID (req : CreateOrderRequest) :
    (applyDefaults req).orderID = req.orderID := rfl

/-- Helper: the defaults step leaves the image list unchanged. -/
theorem applyDefaults_imageFiles (req : CreateOrderRequest) :
    (applyDefaults req).imageFiles = req.imageFiles := rfl

/-- C1 (amended): order creation rolls back and classifies a failing
order-row insert — a pre-existing identifier or a duplicate-key
violation yields the conflict error with the database unchanged, any
other insert failure yields the storage error with the database
unchanged — but a failing image-row insert is merely skipped: the
transaction still commits with the order row present and only the image
rows whose insert succeeded, so the caller can observe an order with
only part of its image rows. -/
theorem create_order_classified_rollback (db : Db) (req : CreateOrderRequest)
    (env : CreateEnv)
    (hb : bindingValid req = true)
    (hs : contains validSources (applyDefaults req).source = true)
    (ht : contains validThickness (applyDefaults req).thickness = true)
    (hc : contains validCorners (applyDefaults req).cornerStyle = true)
    (ho : (goTrimSpace req.orderID == "") = false) :
    (db.orders.any (fun o => o.orderID == goTrimSpace req.orderID) = true →
        CreateOrder db req env
          = (.error (.conflict "Order ID already exists"), db))
    ∧ (db.orders.any (fun o => o.orderID == goTrimSpace req.orderID) = false →
        env.orderFault = .duplicateKey →
        CreateOrder db req env
          = (.error (.conflict "Order ID already exists"), db))
    ∧ (db.orders.any (fun o => o.orderID == goTrimSpace req.orderID) = false →
        env.orderFault = .otherFault →
        CreateOrder db req env
          = (.error (.storage "Failed to create order"), db))
    ∧ (db.orders.any (fun o => o.orderID == goTrimSpace req.orderID) = false →
        env.orderFault = .ok →
        exceptIsOk (CreateOrder db req env).1 = true
        ∧ (CreateOrder db req env).2.images
            = db.images ++ (req.imageFiles.filter env.fsExists).filterMap
                (fun f => if env.imageFault f then none
                  else some (mkOrderImage db.nextId f env.fsSize))
        ∧ (CreateOrder db req env).2.orders.length = db.orders.length + 1) := by
  refine ⟨?_, ?_, ?_, ?_⟩
  · intro hdup
    simp [CreateOrder, hb, hs, ht, hc, ho, hdup, applyDefaults_orderID]
  · intro hdup hf
    simp [CreateOrder, hb, hs, ht, hc, ho, hdup, hf, applyDefaults_orderID]
  · intro hdup hf
    simp [CreateOrder, hb, hs, ht, hc, ho, hdup, hf, applyDefaults_orderID]
  · intro hdup hf
    refine ⟨?_, ?_, ?_⟩ <;>
      simp [CreateOrder, hb, hs, ht, hc, ho, hdup, hf, applyDefaults_orderID,
        applyDefaults_imageFiles, exceptIsOk]

/-- C1 witness: on the empty database, a valid request with two image
files and a failing insert for the second image row still commits. -/
theorem create_order_classified_rollback_witness :
    exceptIsOk (CreateOrder db0 reqImages envImgFaultB).1 = true
    ∧ (CreateOrder db0 reqImages envImgFaultB).2.images
        = db0.images ++
            (reqImages.imageFiles.filter envImgFaultB.fsExists).filterMap
              (fun f => if envImgFaultB.imageFault f then none
                else some (mkOrderImage db0.nextId f envImgFaultB.fsSize))
    ∧ (CreateOrder db0 reqImages envImgFaultB).2.orders.length
        = db0.orders.length + 1 :=
  (create_order_classified_rollback db0 reqImages envImgFaultB
    (by rfl) (by rfl) (by rfl) (by rfl) (by rfl)).2.2.2 (by rfl) rfl

/-- C1 counterexample: a creation whose image-row insert for b.png fails
nevertheless reports success and persists the order with only the a.png
image row — partial state that the claim says can never be observed. -/
theorem create_order_partial_image_state :
    exceptIsOk (CreateOrder db0 reqImages envImgFaultB).1 = true
    ∧ reqImages.imageFiles = ["a.png", "b.png"]
    ∧ (CreateOrder db0 reqImages envImgFaultB).2.images.map
        (fun i => i.filename) = ["a.png"]
    ∧ (CreateOrder db0 reqImages envImgFaultB).2.orders.map
        (fun o => o.orderID) = ["ORD-100"] :=
  ⟨rfl, rfl, rfl, rfl⟩

/-- C9 (amended): updating an existing order succeeds with the new field
values; an empty supplied image list leaves the image table unchanged,
while a non-empty list deletes every image row of the order and inserts
one row per supplied filename that exists in the upload store (supplied
filenames absent from the store get no row), all in one transaction. -/
theorem update_order_image_replacement (db : Db) (id : Nat)
    (req : CreateOrderRequest) (fsE : String → Bool) (fsS : String → Nat)
    (o : Order)
    (h : getOrder db id = some o)
    (hb : bindingValid req = true)
    (hconf : updateConflict db o req = false) :
    (UpdateOrder db id req fsE fsS).1 = .ok (applyOrderFields o req)
    ∧ (req.imageFiles = [] →
        (UpdateOrder db id req fsE fsS).2.images = db.images)
    ∧ (req.imageFiles ≠ [] →
        (UpdateOrder db id req fsE fsS).2.images
          = db.images.filter (fun img => !(img.orderID == o.id)) ++
              (req.imageFiles.filter fsE).map
                (fun f => mkOrderImage o.id f fsS))
    ∧ getOrder (UpdateOrder db id req fsE fsS).2 id
        = some (applyOrderFields o req) := by
  refine ⟨?_, ?_, ?_, ?_⟩
  · simp [UpdateOrder, h, hb, hconf]
  · intro he
    simp [UpdateOrder, h, hb, hconf, he]
  · intro hne
    cases hfe : req.imageFiles with
    | nil => exact absurd hfe hne
    | cons a t => simp [UpdateOrder, h, hb, hconf, hfe]
  · have hupd : (UpdateOrder db id req fsE fsS).2.orders
        = db.orders.map (fun x =>
            if x.id == o.id then applyOrderFields o req else x) := by
      simp [UpdateOrder, h, hb, hconf]
    unfold getOrder
    rw [hupd, find?_id_map_update]
    · rw [show db.orders.find? (fun x => x.id == id) = some o from h]
      simp
    · intro x
      by_cases hx : x.id = o.id
      · simp [hx, applyOrderFields]
      · simp [hx]

/-- C9 witness: updating the concrete order 1, whose image table holds
old.png, with the supplied list [new.png] (present in the store)
replaces the image set; the empty-list branch is also instantiated. -/
theorem update_order_image_replacement_witness :
    (UpdateOrder dbU 1 reqNewImg fsNew zeroSize).1
        = .ok (applyOrderFields o5 reqNewImg)
    ∧ (reqNewImg.imageFiles = [] →
        (UpdateOrder dbU 1 reqNewImg fsNew zeroSize).2.images = dbU.images)
    ∧ (reqNewImg.imageFiles ≠ [] →
        (UpdateOrder dbU 1 reqNewImg fsNew zeroSize).2.images
          = dbU.images.filter (fun img => !(img.orderID == o5.id)) ++
              (reqNewImg.imageFiles.filter fsNew).map
                (fun f => mkOrderImage o5.id f zeroSize))
    ∧ getOrder (UpdateOrder dbU 1 reqNewImg fsNew zeroSize).2 1
        = some (applyOrderFields o5 reqNewImg) :=
  update_order_image_replacement dbU 1 reqNewImg fsNew zeroSize o5
    (by rfl) (by rfl) (by rfl)

/-- C9 counterexample: a successful update supplying the non-empty image
list [missing.png], whose file is absent from the upload store, ends
with no image row at all for the order — the old row is deleted and no
row is inserted for the supplied filename, contradicting the claim that
rows are inserted for the supplied filenames. -/
theorem update_order_missing_file_no_row :
    exceptIsOk (UpdateOrder dbU 1 reqMissing noFs zeroSize).1 = true
    ∧ reqMissing.imageFiles = ["missing.png"]
    ∧ (UpdateOrder dbU 1 reqMissing noFs zeroSize).2.images = [] :=
  ⟨rfl, rfl, rfl⟩

end CustomFlow
